import Mathlib

/-!
Shallow embedding of the litecord state core (guild / presence / invite
managers) and proofs about it.

The Python source keeps an in-memory cache of guilds, channels, roles,
messages and invites, persists mutations to a document store, and
dispatches named events.  Pure fragments of those operations are
translated here as executable Lean functions over explicit state values;
exceptions become `Except`, dispatched events become explicit event
lists.
-/

/-- Python scalar values that occur in presence status dicts:
strings, integers and None. -/
inductive PVal where
  | pstr (s : String)
  | pint (n : Int)
  | pnone
deriving DecidableEq, Repr

/-- A presence status dict.  Every status blob in the system has keys
among status / type / name / url (see `PresenceManager.offline`); a
field set to `none` here models the key being absent from the dict,
while a present key holding Python `None` is `some PVal.pnone`. -/
structure StatusDict where
  status : Option PVal
  type : Option PVal
  name : Option PVal
  url : Option PVal
deriving DecidableEq, Repr

/-- The empty status dict (Python status_update turns a `None` argument
into the empty dict before doing anything else). -/
def emptyStatus : StatusDict := ⟨none, none, none, none⟩

/-- `d.values()` of a status dict: the list of values of present keys. -/
def dvalues (d : StatusDict) : List PVal :=
  (d.status.toList) ++ (d.type.toList) ++ (d.name.toList) ++ (d.url.toList)

/-- Membership-based inclusion of value lists (Python set inclusion). -/
def vsubset (a b : List PVal) : Bool :=
  a.all (fun v => b.contains v)

/-- Python `set(a) == set(b)`: the symmetric difference `set(a) ^ set(b)`
is empty exactly when each list is contained in the other. -/
def veq (a b : List PVal) : Bool :=
  vsubset a b && vsubset b a

/-- Field-wise choice: the first dict's key wins when present. -/
def fieldOr (a b : Option PVal) : Option PVal :=
  match a with
  | some v => some v
  | none => b

/-- Python `g.update(n)`: keys present in `n` override `g`, keys absent
from `n` keep their value in `g`. -/
def dupdate (g n : StatusDict) : StatusDict :=
  ⟨fieldOr n.status g.status, fieldOr n.type g.type,
   fieldOr n.name g.name, fieldOr n.url g.url⟩

/-- Normalization in `status_update`: a literal `'invisible'` status
becomes `'offline'`, a literal `'afk'` becomes `'idle'`.  Other fields
and a missing / non-string status key are untouched. -/
def normalizeStatus (n : StatusDict) : StatusDict :=
  if n.status = some (PVal.pstr "invisible") then
    { n with status := some (PVal.pstr "offline") }
  else if n.status = some (PVal.pstr "afk") then
    { n with status := some (PVal.pstr "idle") }
  else n

/-- Events dispatched by the manager operations modelled in this file. -/
inductive Ev where
  | presenceUpdate
  | roleDelete
  | guildBanAdd
  | guildBanRemove
  | guildMemberRemove
  | guildDelete
  | messageCreate
deriving DecidableEq, Repr

/-- The presence table `PresenceManager.presences`: an association list
from (guild id, user id) to the presence's `game` status dict. -/
def PState : Type := List ((Nat × Nat) × StatusDict)

/-- Lookup of `presences[guild_id][user_id]`. -/
def plookup (ps : PState) (gid uid : Nat) : Option StatusDict :=
  (ps.find? (fun e => e.1 = (gid, uid))).map (fun e => e.2)

/-- Store (or overwrite) the presence of `(gid, uid)`. -/
def pinsert (ps : PState) (gid uid : Nat) (g : StatusDict) : PState :=
  match ps with
  | [] => [((gid, uid), g)]
  | e :: rest =>
      if e.1 = (gid, uid) then ((gid, uid), g) :: rest
      else e :: pinsert rest gid uid g

/-- `PresenceManager.status_update(guild, user, new_status)`.

Normalizes the incoming status, creates a Presence for the pair if none
exists (the `Presence` constructor lives in the repository's `objects`
module, which is not among the shown sources; modelled from the spec:
"one is created with the given status", so the fresh `game` is the
normalized incoming dict), then compares `set(game.values())` with
`set(new_status.values())`; when the symmetric difference is empty the
call returns without touching anything or dispatching (the function
never writes the store in either case), otherwise `game.update(new
status)` is applied in place and one PRESENCE_UPDATE is dispatched.
Returns the new presence table and the dispatched events. -/
def status_update (ps : PState) (gid uid : Nat) (newStatus : StatusDict) :
    PState × List Ev :=
  let ns := normalizeStatus newStatus
  let game0 :=
    match plookup ps gid uid with
    | none => ns
    | some g => g
  if veq (dvalues game0) (dvalues ns) then
    (pinsert ps gid uid game0, [])
  else
    (pinsert ps gid uid (dupdate game0 ns), [Ev.presenceUpdate])

theorem veq_refl (a : List PVal) : veq a a = true := by
  simp [veq, vsubset, List.all_eq_true]

theorem plookup_pinsert (ps : PState) (gid uid : Nat) (g : StatusDict) :
    plookup (pinsert ps gid uid g) gid uid = some g := by
  induction ps with
  | nil => simp [pinsert, plookup]
  | cons e rest ih =>
      by_cases h : e.1 = (gid, uid)
      · simp [pinsert, h, plookup]
      · simp only [pinsert, if_neg h]
        simpa [plookup, List.find?, h] using ih

theorem fieldOr_of_covering (a b : Option PVal) (h : b.isSome → a.isSome) :
    fieldOr a b = a := by
  cases a with
  | some v => rfl
  | none =>
      cases b with
      | none => rfl
      | some w => simp [Option.isSome] at h

/-- When every field present in `g` is also present in `n`, Python
`g.update(n)` produces exactly `n`. -/
theorem dupdate_covering (g n : StatusDict)
    (hs : g.status.isSome → n.status.isSome)
    (ht : g.type.isSome → n.type.isSome)
    (hn : g.name.isSome → n.name.isSome)
    (hu : g.url.isSome → n.url.isSome) :
    dupdate g n = n := by
  simp only [dupdate, fieldOr_of_covering n.status g.status hs,
    fieldOr_of_covering n.type g.type ht,
    fieldOr_of_covering n.name g.name hn,
    fieldOr_of_covering n.url g.url hu]

/-- A stored presence for pair (1, 2): a full four-field game dict, as
produced by `PresenceManager.offline` for an online user. -/
def c1Game : StatusDict :=
  ⟨some (PVal.pstr "online"), some (PVal.pint 0), some PVal.pnone,
   some PVal.pnone⟩

/-- A partial incoming status dict carrying only the status field. -/
def c1New : StatusDict := ⟨some (PVal.pstr "idle"), none, none, none⟩

/-- Claim C1 counterexample: for the pair (1, 2), which already has a
Presence, two successive `status_update` calls with the identical,
already-normalized status dict carrying only `status: idle` each
dispatch a PRESENCE_UPDATE: the stored game keeps its type / name / url
values, which are never in the incoming value set, so the symmetric
difference of value sets is non-empty on the second call as well and
the second call is not suppressed. -/
theorem status_update_second_identical_call_dispatches :
    (status_update (status_update [((1, 2), c1Game)] 1 2 c1New).1
      1 2 c1New).2 = [Ev.presenceUpdate] := by decide

/-- Claim C1 (amended): for a pair that already has a Presence, if every
field present in the stored game is also present in the (normalized)
incoming status — in particular whenever the client resends a full
status dict — then the second of two successive `status_update` calls
with that status dispatches zero events (and `status_update` performs
no store write in any case: the source function never touches the
presence collection). -/
theorem status_update_second_call_suppressed (ps : PState) (gid uid : Nat)
    (g0 n : StatusDict)
    (hex : plookup ps gid uid = some g0)
    (hs : g0.status.isSome → (normalizeStatus n).status.isSome)
    (ht : g0.type.isSome → (normalizeStatus n).type.isSome)
    (hn : g0.name.isSome → (normalizeStatus n).name.isSome)
    (hu : g0.url.isSome → (normalizeStatus n).url.isSome) :
    (status_update (status_update ps gid uid n).1 gid uid n).2 = [] := by
  have hupd := dupdate_covering g0 (normalizeStatus n) hs ht hn hu
  by_cases h : veq (dvalues g0) (dvalues (normalizeStatus n)) = true
  · have h1 : (status_update ps gid uid n).1 = pinsert ps gid uid g0 := by
      simp [status_update, hex, h]
    rw [h1]
    simp [status_update, plookup_pinsert, h]
  · have h1 : (status_update ps gid uid n).1
        = pinsert ps gid uid (normalizeStatus n) := by
      simp [status_update, hex, h, hupd]
    rw [h1]
    simp [status_update, plookup_pinsert, veq_refl]

/-- Witness for the amended claim C1 at a concrete state: the pair
(1, 2) holds a full game dict and the client resends a full status. -/
theorem status_update_second_call_suppressed_witness :
    (status_update
      (status_update [((1, 2), c1Game)] 1 2
        ⟨some (PVal.pstr "dnd"), some (PVal.pint 0), some PVal.pnone,
         some PVal.pnone⟩).1 1 2
      ⟨some (PVal.pstr "dnd"), some (PVal.pint 0), some PVal.pnone,
       some PVal.pnone⟩).2 = [] :=
  status_update_second_call_suppressed [((1, 2), c1Game)] 1 2 c1Game
    ⟨some (PVal.pstr "dnd"), some (PVal.pint 0), some PVal.pnone,
     some PVal.pnone⟩
    (by decide) (by decide) (by decide) (by decide) (by decide)

/-- Claim C4 counterexample: with no existing Presence for the pair
(1, 2), the first `status_update` call with a full status dict creates
the Presence but dispatches zero events: the fresh game dict is the
given status itself, so the symmetric difference of value sets is empty
and the creation is suppressed, contrary to the claim that a
PRESENCE_UPDATE is dispatched. -/
theorem status_update_first_creation_dispatches_nothing :
    (status_update [] 1 2
      ⟨some (PVal.pstr "online"), some (PVal.pint 0), some PVal.pnone,
       some PVal.pnone⟩).2 = [] := by decide

/-- Claim C4 (amended): for a pair with no existing Presence, the first
`status_update` call creates a Presence holding exactly the given
normalized status, but dispatches zero events: because the fresh game
is the given status, the value-set diff is empty and the creation is
always suppressed. -/
theorem status_update_creates_presence_suppressed (ps : PState)
    (gid uid : Nat) (n : StatusDict)
    (hnone : plookup ps gid uid = none) :
    status_update ps gid uid n
      = (pinsert ps gid uid (normalizeStatus n), []) ∧
    plookup (status_update ps gid uid n).1 gid uid
      = some (normalizeStatus n) := by
  have h1 : status_update ps gid uid n
      = (pinsert ps gid uid (normalizeStatus n), []) := by
    simp [status_update, hnone, veq_refl]
  exact ⟨h1, by rw [h1]; exact plookup_pinsert ps gid uid (normalizeStatus n)⟩

/-- Witness for the amended claim C4 at the empty presence table. -/
theorem status_update_creates_presence_suppressed_witness :
    status_update [] 1 2 c1New = (pinsert [] 1 2 (normalizeStatus c1New), []) ∧
    plookup (status_update [] 1 2 c1New).1 1 2
      = some (normalizeStatus c1New) :=
  status_update_creates_presence_suppressed [] 1 2 c1New (by decide)

/-- Python exception kinds raised (or swallowed) by the manager code. -/
inductive PyErr where
  | valueError
  | typeError
  | nameError
  | exn (msg : String)
deriving DecidableEq, Repr

/-- A cached Role object (`litecord.objects.Role`): its id and the id of
the guild it back-references. -/
structure RoleObj where
  id : Nat
  guildId : Nat
deriving DecidableEq, Repr

/-- A cached guild channel object: id, owning guild id, and its
permission-overwrite list, whose entries are role objects. -/
structure ChannelObj where
  id : Nat
  guildId : Nat
  overwrites : List RoleObj
deriving DecidableEq, Repr

/-- A live Guild object: id plus its role / channel object lists. -/
structure GuildObj where
  id : Nat
  roles : List RoleObj
  channels : List ChannelObj
deriving DecidableEq, Repr

/-- An entry of `GuildManager.roles`.  Python lists are untyped, so the
buggy `self.roles.remove(channel)` statement in `reload_role` compares a
channel object against the role entries; modelling the cache as a sum
type keeps that comparison expressible (a channel entry never equals a
role entry, exactly as two distinct Python objects of different classes
never compare equal). -/
inductive CacheObj where
  | role (r : RoleObj)
  | chan (c : ChannelObj)
deriving DecidableEq, Repr

/-- The `.id` attribute Python's `get(seq, id=...)` helper reads. -/
def cacheObjId : CacheObj → Nat
  | .role r => r.id
  | .chan c => c.id

/-- The slice of `GuildManager` state these claims need: the role store
collection (documents keyed by role_id), the manager-level caches
`self.roles`, `self.guilds`, `self.channels`, `self.messages` (messages
kept as bare ids). -/
structure GMState where
  storeRoles : List Nat
  roles : List CacheObj
  guilds : List GuildObj
  channels : List ChannelObj
  messages : List Nat
deriving DecidableEq, Repr

/-- `try: l.remove(x) except ValueError: pass` — drop the first
occurrence of `x`, or leave the list unchanged when absent. -/
def removeFirst {α : Type} [DecidableEq α] (l : List α) (x : α) : List α :=
  match l with
  | [] => []
  | y :: rest => if y = x then rest else y :: removeFirst rest x

/-- Strip `role` from a channel's overwrite list when present (the loop
body of `reload_role`). -/
def stripOverwrite (role : RoleObj) (c : ChannelObj) : ChannelObj :=
  if role ∈ c.overwrites then
    { c with overwrites := removeFirst c.overwrites role }
  else c

/-- `GuildManager.reload_role(role)` where `g` is the live `role.guild`
object.  When the role's document is still in the store the merge leaves
our id-level model unchanged; when it is absent the eviction branch
runs: the role is removed from `guild.roles`, stripped from the
overwrite list of every channel of the guild (channel objects are
shared between `guild.channels` and the manager's `self.channels`, so
the in-place mutation is applied to both lists here), and then the
source executes `self.roles.remove(channel)` — `channel` being the
for-loop variable, i.e. the last channel iterated — instead of
`self.roles.remove(role)`; with no channels the name is unbound and a
NameError propagates, otherwise the removal of a channel object from a
list of role objects raises ValueError, which the `except ValueError:
pass` swallows. -/
def reload_role (st : GMState) (g : GuildObj) (role : RoleObj) :
    Except PyErr GMState :=
  if role.id ∈ st.storeRoles then
    .ok st
  else
    let g' : GuildObj :=
      { g with roles := removeFirst g.roles role,
               channels := g.channels.map (stripOverwrite role) }
    match g'.channels.getLast? with
    | none => .error PyErr.nameError
    | some lastChan =>
        .ok { st with
              roles := removeFirst st.roles (CacheObj.chan lastChan),
              guilds := st.guilds.map (fun x => if x.id = g.id then g' else x),
              channels := st.channels.map (fun c =>
                if c.guildId = g.id then stripOverwrite role c else c) }

/-- `GuildManager.delete_role(role)`: delete the role's document from
the store, reload the role (taking the eviction branch), then dispatch
ROLE_DELETE. -/
def delete_role (st : GMState) (g : GuildObj) (role : RoleObj) :
    Except PyErr (GMState × List Ev) :=
  let st1 := { st with storeRoles := removeFirst st.storeRoles role.id }
  match reload_role st1 g role with
  | .error e => .error e
  | .ok st2 => .ok (st2, [Ev.roleDelete])

/-- Role 10 of guild 1, used by the delete_role scenario. -/
def c2Role : RoleObj := ⟨10, 1⟩

/-- Channel 20 of guild 1, with role 10 in its overwrite list. -/
def c2Chan : ChannelObj := ⟨20, 1, [c2Role]⟩

/-- Guild 1 holding role 10 and channel 20. -/
def c2Guild : GuildObj := ⟨1, [c2Role], [c2Chan]⟩

/-- Manager state before `delete_role(role 10)`. -/
def c2State : GMState :=
  ⟨[10], [CacheObj.role c2Role], [c2Guild], [c2Chan], []⟩

/-- Guild 2 holding role 11 and no channels at all. -/
def c2bRole : RoleObj := ⟨11, 2⟩

/-- Manager state before `delete_role(role 11)` of the channel-less
guild 2. -/
def c2bState : GMState :=
  ⟨[11], [CacheObj.role c2bRole], [⟨2, [c2bRole], []⟩], [], []⟩

/-- Claim C2 evidence: `delete_role` on role 10 deletes the document,
evicts the role from the guild's role list, strips it from channel 20's
overwrite list (in the guild and in the manager channel cache) and
dispatches ROLE_DELETE — but the role object is still present in the
manager's `self.roles` cache, because `reload_role` removes the for-loop
variable `channel` from `self.roles` instead of `role` (the removal
fails and the ValueError is swallowed).  On a guild with no channels the
loop variable is unbound, so `delete_role` raises NameError and never
dispatches ROLE_DELETE. -/
theorem delete_role_retains_manager_role_cache :
    delete_role c2State c2Guild c2Role
      = .ok (⟨[], [CacheObj.role c2Role], [⟨1, [], [⟨20, 1, []⟩]⟩],
              [⟨20, 1, []⟩], []⟩, [Ev.roleDelete]) ∧
    delete_role c2bState ⟨2, [c2bRole], []⟩ c2bRole
      = .error PyErr.nameError := ⟨rfl, rfl⟩

/-- A Python value passed as an entity id to a cache getter, abstracting
`int()` coercion: an integer, a string holding a decimal integer, a
non-numeric string, or None. -/
inductive PyVal where
  | vint (n : Int)
  | vnumstr (n : Int)
  | vbadstr
  | vnone
deriving DecidableEq, Repr

/-- Python `int(x)` on such a value: integers and numeric strings
convert, a non-numeric string raises ValueError, None raises
TypeError. -/
def pyToInt : PyVal → Except PyErr Int
  | .vint n => .ok n
  | .vnumstr n => .ok n
  | .vbadstr => .error PyErr.valueError
  | .vnone => .error PyErr.typeError

/-- `GuildManager.get_guild`: coerces the id with `int()` catching only
ValueError; a TypeError (e.g. from `int(None)`) propagates. -/
def get_guild (st : GMState) (v : PyVal) : Except PyErr (Option GuildObj) :=
  match pyToInt v with
  | .error PyErr.valueError => .ok none
  | .error e => .error e
  | .ok n => .ok (st.guilds.find? (fun g => (g.id : Int) == n))

/-- `GuildManager.get_channel`: coerces with `int()` catching ValueError
and TypeError; on a hit it also schedules a background last-message
refresh and re-binds `channel.guild`, side effects with no bearing on
the returned value. -/
def get_channel (st : GMState) (v : PyVal) :
    Except PyErr (Option ChannelObj) :=
  match pyToInt v with
  | .error PyErr.valueError => .ok none
  | .error PyErr.typeError => .ok none
  | .error e => .error e
  | .ok n => .ok (st.channels.find? (fun c => (c.id : Int) == n))

/-- `GuildManager.get_role`: coerces with `int()` catching ValueError
and TypeError, then scans `self.roles` by the `.id` attribute. -/
def get_role (st : GMState) (v : PyVal) : Except PyErr (Option CacheObj) :=
  match pyToInt v with
  | .error PyErr.valueError => .ok none
  | .error PyErr.typeError => .ok none
  | .error e => .error e
  | .ok n => .ok (st.roles.find? (fun r => (cacheObjId r : Int) == n))

/-- `GuildManager.get_message`: coerces with `int()` catching ValueError
and TypeError, then scans the message cache by id. -/
def get_message (st : GMState) (v : PyVal) : Except PyErr (Option Nat) :=
  match pyToInt v with
  | .error PyErr.valueError => .ok none
  | .error PyErr.typeError => .ok none
  | .error e => .error e
  | .ok n => .ok (st.messages.find? (fun m => (m : Int) == n))

/-- The empty manager state. -/
def gmEmpty : GMState := ⟨[], [], [], [], []⟩

/-- Claim C6 counterexample: `get_guild(None)` raises TypeError instead
of returning not-found — `get_guild` catches only ValueError around its
`int()` coercion, unlike the other three getters. -/
theorem get_guild_none_raises :
    get_guild gmEmpty PyVal.vnone = .error PyErr.typeError := rfl

/-- Claim C6 (amended): on every input whose `int()` coercion fails,
`get_channel`, `get_role` and `get_message` return not-found and never
raise; `get_guild` returns not-found for inputs failing with ValueError
(non-numeric strings) but propagates the TypeError that `int(None)`
raises. -/
theorem cache_getters_malformed_input (st : GMState) (v : PyVal) (e : PyErr)
    (hbad : pyToInt v = .error e) :
    get_channel st v = .ok none ∧ get_role st v = .ok none ∧
    get_message st v = .ok none ∧
    (e = PyErr.valueError → get_guild st v = .ok none) := by
  cases v with
  | vint n => simp [pyToInt] at hbad
  | vnumstr n => simp [pyToInt] at hbad
  | vbadstr =>
      refine ⟨rfl, rfl, rfl, fun _ => rfl⟩
  | vnone =>
      simp only [pyToInt] at hbad
      refine ⟨rfl, rfl, rfl, fun he => ?_⟩
      cases hbad
      exact absurd he (by decide)

/-- Witness for the amended claim C6: a non-numeric string id. -/
theorem cache_getters_malformed_input_witness :
    get_channel gmEmpty PyVal.vbadstr = .ok none ∧
    get_role gmEmpty PyVal.vbadstr = .ok none ∧
    get_message gmEmpty PyVal.vbadstr = .ok none ∧
    (PyErr.valueError = PyErr.valueError →
      get_guild gmEmpty PyVal.vbadstr = .ok none) :=
  cache_getters_malformed_input gmEmpty PyVal.vbadstr PyErr.valueError rfl

/-- Boolean success test for `Except` results. -/
def exceptOk {ε α : Type} : Except ε α → Bool
  | .ok _ => true
  | .error _ => false

/-- The steps of `new_message`'s try-block, each of which may raise:
author lookup, Message construction, the store insert (the persistence
failure the claim names), the cache append, the MESSAGE_CREATE
dispatch. -/
inductive MsgStep where
  | getAuthor
  | mkMessage
  | insertStore
  | appendCache
  | dispatchEvent
deriving DecidableEq, Repr

/-- `GuildManager.message_semaphore = asyncio.Semaphore(3)`: the
message-creation gate starts with 3 permits. -/
def message_semaphore_init : Nat := 3

/-- The try-block body of `new_message`, abstracted over an oracle
saying which steps raise; on success the message id is appended to the
message cache and one MESSAGE_CREATE is dispatched.  An insert whose
acknowledgement is merely negative does not raise (the source only logs
it); a raising insert is the `insertStore` failure. -/
def newMessageBody (fails : MsgStep → Bool) (msgs : List Nat) (mid : Nat) :
    Except PyErr (List Nat × List Ev) :=
  if fails MsgStep.getAuthor then .error (PyErr.exn "author") else
  if fails MsgStep.mkMessage then .error (PyErr.exn "message") else
  if fails MsgStep.insertStore then .error (PyErr.exn "insert") else
  if fails MsgStep.appendCache then .error (PyErr.exn "append") else
  if fails MsgStep.dispatchEvent then .error (PyErr.exn "dispatch") else
  .ok (msgs ++ [mid], [Ev.messageCreate])

/-- `GuildManager.new_message`: acquire one permit of the message
semaphore, run the body inside `try`, and release the permit in the
`finally` block whether the body returned or raised.  Takes and returns
the semaphore's available-permit count; acquiring requires a free
permit (with none available the coroutine would suspend until a release,
which cooperative scheduling guarantees eventually happens). -/
def new_message (fails : MsgStep → Bool) (sem : Nat) (msgs : List Nat)
    (mid : Nat) : Nat × Except PyErr (List Nat × List Ev) :=
  match newMessageBody fails msgs mid with
  | .ok r => (sem - 1 + 1, .ok r)
  | .error e => (sem - 1 + 1, .error e)

/-- Claim C5: with the gate initialized to 3 permits, every execution of
`new_message` — the success path and every raising step, store
persistence failure included — restores the semaphore's permit count on
exit. -/
theorem new_message_releases_semaphore (fails : MsgStep → Bool) (sem : Nat)
    (msgs : List Nat) (mid : Nat) (hfree : 0 < sem) :
    (new_message fails sem msgs mid).1 = sem ∧
    message_semaphore_init = 3 := by
  refine ⟨?_, rfl⟩
  unfold new_message
  cases newMessageBody fails msgs mid <;>
    simp [Nat.sub_add_cancel hfree]

/-- Witness for claim C5: a store-insert failure with all 3 permits
free. -/
theorem new_message_releases_semaphore_witness :
    (new_message (fun s => s == MsgStep.insertStore) 3 [] 5).1 = 3 ∧
    message_semaphore_init = 3 :=
  new_message_releases_semaphore (fun s => s == MsgStep.insertStore) 3 [] 5
    (by decide)

/-- `GuildManager.shard_count` as written: Python 3 true division of the
guild count by 1200 (an exact quotient, no rounding) and `max(..., 1)`. -/
def shard_count (gc : Nat) : ℚ := max ((gc : ℚ) / 1200) 1

/-- Modelled from the spec: `shard_count(user) =
max(ceil(guild_count(user) / 1200), 1)` — the docstring's integer shard
count, with the ceiling written as Nat arithmetic. -/
def shard_count_spec (gc : Nat) : Nat := max ((gc + 1199) / 1200) 1

/-- Claim C3 evidence: at 1201 guilds the code yields the non-integer
1201/1200 (its own docstring promises an int), not the 2 the claim and
the spec formula give; below 1200 both agree on 1. -/
theorem shard_count_missing_ceil :
    shard_count 1201 = 1201 / 1200 ∧ shard_count 1201 ≠ 2 ∧
    shard_count_spec 1201 = 2 ∧
    shard_count 1199 = 1 ∧ shard_count_spec 1199 = 1 := by
  refine ⟨?_, ?_, ?_, ?_, ?_⟩
  · unfold shard_count
    rw [max_eq_left (by norm_num)]
    norm_num
  · unfold shard_count
    rw [max_eq_left (by norm_num)]
    norm_num
  · rfl
  · unfold shard_count
    rw [max_eq_right (by norm_num)]
  · rfl

/-- The raw guild document `new_guild` builds. -/
structure RawGuild where
  guild_id : Nat
  name : String
  owner_id : Nat
  channel_ids : List Nat
  role_ids : List Nat
  member_ids : List Nat
  bans : List Nat
deriving DecidableEq, Repr

/-- The raw default-channel document `new_guild` builds. -/
structure RawChannel where
  channel_id : Nat
  guild_id : Nat
  position : Nat
deriving DecidableEq, Repr

/-- The raw default-role document `new_guild` builds. -/
structure RawRole where
  role_id : Nat
  guild_id : Nat
  permissions : Nat
  position : Nat
deriving DecidableEq, Repr

/-- `GuildManager.new_guild(owner, payload)`: allocates one snowflake
`gid` and builds the raw guild, default text channel and default role
documents, all three sharing that id; the guild document lists exactly
the default channel and default role and the owner as only member. -/
def new_guild (gid ownerId : Nat) (gname : String) :
    RawGuild × RawChannel × RawRole :=
  (⟨gid, gname, ownerId, [gid], [gid], [ownerId], []⟩,
   ⟨gid, gid, 0⟩,
   ⟨gid, gid, 104188929, 0⟩)

/-- Claim C7: every guild built by `new_guild` has singleton channel and
role lists, both holding the guild's own id, which is also the id of
the default channel and of the default role. -/
theorem new_guild_singleton_ids (gid ownerId : Nat) (gname : String) :
    (new_guild gid ownerId gname).1.channel_ids
      = [(new_guild gid ownerId gname).1.guild_id] ∧
    (new_guild gid ownerId gname).1.role_ids
      = [(new_guild gid ownerId gname).1.guild_id] ∧
    (new_guild gid ownerId gname).2.1.channel_id
      = (new_guild gid ownerId gname).1.guild_id ∧
    (new_guild gid ownerId gname).2.2.role_id
      = (new_guild gid ownerId gname).1.guild_id :=
  ⟨rfl, rfl, rfl, rfl⟩

/-- The guild fields `ban_user` / `unban_user` read and write. -/
structure BanGuild where
  id : Nat
  member_ids : List Nat
  banned_ids : List Nat
deriving DecidableEq, Repr

/-- `GuildManager.ban_user(guild, user)`: `bans.index(user.id)`
succeeding means the user is already banned and a domain error is
raised before anything is written; otherwise the id is appended to the
banned list, the guild document updated and reloaded (a round-trip that
leaves the live object as written), GUILD_BAN_ADD dispatched, and when
the user is still a member `remove_member` runs, dispatching
GUILD_MEMBER_REMOVE and GUILD_DELETE. -/
def ban_user (g : BanGuild) (uid : Nat) : Except PyErr (BanGuild × List Ev) :=
  if uid ∈ g.banned_ids then .error (PyErr.exn "User already banned")
  else if uid ∈ g.member_ids then
    .ok (⟨g.id, removeFirst g.member_ids uid, g.banned_ids ++ [uid]⟩,
         [Ev.guildBanAdd, Ev.guildMemberRemove, Ev.guildDelete])
  else
    .ok (⟨g.id, g.member_ids, g.banned_ids ++ [uid]⟩, [Ev.guildBanAdd])

/-- `GuildManager.unban_user(guild, user)`: `banned_ids.remove` raising
ValueError means the user was never banned and a domain error is
raised; otherwise the ban is dropped, persisted, and GUILD_BAN_REMOVE
dispatched. -/
def unban_user (g : BanGuild) (uid : Nat) :
    Except PyErr (BanGuild × List Ev) :=
  if uid ∈ g.banned_ids then
    .ok (⟨g.id, g.member_ids, removeFirst g.banned_ids uid⟩,
         [Ev.guildBanRemove])
  else .error (PyErr.exn "User not banned")

/-- Claim C8: banning an already-banned user raises a domain error (so
the second of two consecutive bans of the same user is rejected), and
unbanning a user who is not banned raises a domain error. -/
theorem ban_unban_reject (g : BanGuild) (uid : Nat) :
    (uid ∈ g.banned_ids → exceptOk (ban_user g uid) = false) ∧
    (∀ g2 evs, ban_user g uid = .ok (g2, evs) →
      exceptOk (ban_user g2 uid) = false) ∧
    (uid ∉ g.banned_ids → exceptOk (unban_user g uid) = false) := by
  refine ⟨fun h => by simp [ban_user, h, exceptOk], ?_,
    fun h => by simp [unban_user, h, exceptOk]⟩
  intro g2 evs h
  by_cases hb : uid ∈ g.banned_ids
  · simp [ban_user, hb] at h
  · by_cases hm : uid ∈ g.member_ids
    · simp only [ban_user, if_neg hb, if_pos hm, Except.ok.injEq,
        Prod.mk.injEq] at h
      obtain ⟨hg, -⟩ := h
      subst hg
      simp [ban_user, exceptOk]
    · simp only [ban_user, if_neg hb, if_neg hm, Except.ok.injEq,
        Prod.mk.injEq] at h
      obtain ⟨hg, -⟩ := h
      subst hg
      simp [ban_user, exceptOk]

/-- Witness for claim C8: guild 1 with member 5; double ban and
unban-of-never-banned both reject. -/
theorem ban_unban_reject_witness :
    exceptOk (ban_user ⟨1, [5], [5]⟩ 5) = false ∧
    exceptOk (ban_user ⟨1, [], [5]⟩ 5) = false ∧
    exceptOk (unban_user ⟨1, [5], []⟩ 5) = false :=
  ⟨(ban_unban_reject ⟨1, [5], [5]⟩ 5).1 (by decide),
   (ban_unban_reject ⟨1, [5], []⟩ 5).2.1 ⟨1, [], [5]⟩
     [Ev.guildBanAdd, Ev.guildMemberRemove, Ev.guildDelete] rfl,
   (ban_unban_reject ⟨1, [5], []⟩ 5).2.2 (by decide)⟩

/-- The invite-create payload after schema validation: `max_age` and
`max_uses` integers (`max_uses` optional at the `create_invite` level,
where a missing key defaults to -1), plus the client-supplied temporary
and unique flags. -/
structure InvitePayload where
  max_age : Int
  max_uses : Option Int
  temporary : Bool
  unique : Bool
deriving DecidableEq, Repr

/-- The raw invite document `create_invite` builds. -/
structure RawInvite where
  code : String
  channel_id : Nat
  inviter_id : Nat
  timestamp : Option Int
  uses : Int
  temporary : Bool
  unique : Bool
deriving DecidableEq, Repr

/-- `GuildManager.create_invite(channel, inviter, payload)`: when
`max_age > 0` the expiry is the absolute instant `now + max_age` (the
source stores it as an ISO timestamp; modelled as epoch seconds),
otherwise there is no expiry; `max_uses` defaults to -1 when absent and
an explicit 0 is normalized to -1 (unlimited); the temporary and unique
fields of the document are hard-coded False and True, ignoring the
payload's values. -/
def create_invite (now : Int) (code : String) (channelId inviterId : Nat)
    (p : InvitePayload) : RawInvite :=
  ⟨code, channelId, inviterId,
   if 0 < p.max_age then some (now + p.max_age) else none,
   if p.max_uses.getD (-1) = 0 then -1 else p.max_uses.getD (-1),
   false, true⟩

/-- Claim C9: `max_age = 0` gives an invite with no expiry timestamp,
`max_uses = 0` gives remaining uses -1 (unlimited), and `max_age > 0`
gives the absolute expiry `now + max_age`. -/
theorem create_invite_expiry_uses (now : Int) (code : String)
    (chId invId : Nat) (p : InvitePayload) :
    (p.max_age = 0 →
      (create_invite now code chId invId p).timestamp = none) ∧
    (p.max_uses = some 0 →
      (create_invite now code chId invId p).uses = -1) ∧
    (0 < p.max_age →
      (create_invite now code chId invId p).timestamp
        = some (now + p.max_age)) := by
  refine ⟨fun h => ?_, fun h => ?_, fun h => ?_⟩ <;>
    simp [create_invite, h]

/-- Witness for claim C9 at concrete payloads. -/
theorem create_invite_expiry_uses_witness :
    (create_invite 100 "abc" 1 2 ⟨0, some 0, true, false⟩).timestamp
      = none ∧
    (create_invite 100 "abc" 1 2 ⟨0, some 0, true, false⟩).uses = -1 ∧
    (create_invite 100 "abc" 1 2 ⟨7, some 0, true, false⟩).timestamp
      = some 107 :=
  ⟨(create_invite_expiry_uses 100 "abc" 1 2 ⟨0, some 0, true, false⟩).1 rfl,
   (create_invite_expiry_uses 100 "abc" 1 2 ⟨0, some 0, true, false⟩).2.1
     rfl,
   (create_invite_expiry_uses 100 "abc" 1 2 ⟨7, some 0, true, false⟩).2.2
     (by norm_num)⟩

/-- Claim C10: the constructed invite always has temporary = False and
unique = True, whatever the payload supplied. -/
theorem create_invite_fixed_flags (now : Int) (code : String)
    (chId invId : Nat) (p : InvitePayload) :
    (create_invite now code chId invId p).temporary = false ∧
    (create_invite now code chId invId p).unique = true :=
  ⟨rfl, rfl⟩
